import Mathlib

/-!
Verification of the DuckSync caching extension (staleness detection, refresh
orchestration, metadata store and query routing).

The development is a shallow embedding of the C++ sources:

* `src/src/metadata_manager.cpp`    — `DuckSyncMetadataManager` (SQL tables as lists of rows)
* `src/src/include/refresh_orchestrator.hpp` — `RefreshOrchestrator`
* `src/src/query_router.cpp`        — `QueryRouter` (replacement-scan path)
* `src/src/ducksync_extension.cpp`  — `DuckSyncQueryBind` routing and AST traversal

Modelling conventions:

* Timestamps are `Int` instants; the SQL comparisons (`TIMESTAMP t < CURRENT_TIMESTAMP`
  etc.) and the ISO-string comparison in `DuckSyncQueryBind` become `Int` comparisons.
* A nullable column / an empty-string field of `CacheState` is an `Option`.
* Remote responses (the Snowflake metadata probe and the materialization of the
  source query) are inputs of the model (`RefreshEnv`), `Except`-valued: `.error`
  models the C++ exception thrown at the corresponding call site.
* The OpenSSL `SHA256` digest is implemented in full (FIPS 180-4) over the byte
  values of the serialized string; table identifiers and timestamps are ASCII, so
  `Char.toNat` agrees with the UTF-8 bytes the C++ code hashes.
-/

deriving instance DecidableEq for Except

namespace DuckSync

/-! ### SHA-256 (model of OpenSSL `SHA256` used by `GenerateStateHash`) -/

/-- Truncation to a 32-bit word. -/
def w32 (x : Nat) : Nat := x % 4294967296

/-- 32-bit right rotation. -/
def rotr32 (n x : Nat) : Nat := w32 ((x >>> n) ||| (x <<< (32 - n)))

def bigSigma0 (x : Nat) : Nat := rotr32 2 x ^^^ rotr32 13 x ^^^ rotr32 22 x

def bigSigma1 (x : Nat) : Nat := rotr32 6 x ^^^ rotr32 11 x ^^^ rotr32 25 x

def smallSigma0 (x : Nat) : Nat := rotr32 7 x ^^^ rotr32 18 x ^^^ (x >>> 3)

def smallSigma1 (x : Nat) : Nat := rotr32 17 x ^^^ rotr32 19 x ^^^ (x >>> 10)

def chV (e f g : Nat) : Nat := (e &&& f) ^^^ ((e ^^^ 4294967295) &&& g)

def majV (a b c : Nat) : Nat := (a &&& b) ^^^ (a &&& c) ^^^ (b &&& c)

/-- The 64 SHA-256 round constants (fractional parts of the cube roots of the
first 64 primes, FIPS 180-4 section 4.2.2, written in decimal). -/
def sha256K : List Nat :=
  [1116352408, 1899447441, 3049323471, 3921009573, 961987163, 1508970993,
   2453635748, 2870763221, 3624381080, 310598401, 607225278, 1426881987,
   1925078388, 2162078206, 2614888103, 3248222580, 3835390401, 4022224774,
   264347078, 604807628, 770255983, 1249150122, 1555081692, 1996064986,
   2554220882, 2821834349, 2952996808, 3210313671, 3336571891, 3584528711,
   113926993, 338241895, 666307205, 773529912, 1294757372, 1396182291,
   1695183700, 1986661051, 2177026350, 2456956037, 2730485921, 2820302411,
   3259730800, 3345764771, 3516065817, 3600352804, 4094571909, 275423344,
   430227734, 506948616, 659060556, 883997877, 958139571, 1322822218,
   1537002063, 1747873779, 1955562222, 2024104815, 2227730452, 2361852424,
   2428436474, 2756734187, 3204031479, 3329325298]

/-- The SHA-256 initial hash value (FIPS 180-4 section 5.3.3, in decimal). -/
def sha256H0 : List Nat :=
  [1779033703, 3144134277, 1013904242, 2773480762,
   1359893119, 2600822924, 528734635, 1541459225]

/-- Big-endian bytes of the 64-bit message length. -/
def lenBytes64 (x : Nat) : List Nat :=
  (List.range 8).map (fun i => (x >>> ((7 - i) * 8)) % 256)

/-- FIPS 180-4 padding: append `0x80`, zeros, then the 64-bit bit length. -/
def sha256Pad (msg : List Nat) : List Nat :=
  let len := msg.length
  let zeros := (120 - ((len + 1) % 64)) % 64
  msg ++ [128] ++ List.replicate zeros 0 ++ lenBytes64 (len * 8)

/-- Big-endian 32-bit word from the four bytes of `block` starting at `i`. -/
def wordAt (block : List Nat) (i : Nat) : Nat :=
  block.getD i 0 * 16777216 + block.getD (i + 1) 0 * 65536 +
    block.getD (i + 2) 0 * 256 + block.getD (i + 3) 0

/-- Message-schedule extension; called with fuel 48 to grow 16 words to 64. -/
def extendW : Nat → List Nat → List Nat
  | 0, w => w
  | n + 1, w =>
    let t := w.length
    let nw := w32 (smallSigma1 (w.getD (t - 2) 0) + w.getD (t - 7) 0 +
                   smallSigma0 (w.getD (t - 15) 0) + w.getD (t - 16) 0)
    extendW n (w ++ [nw])

/-- One compression round. -/
def sha256Round (st : Nat × Nat × Nat × Nat × Nat × Nat × Nat × Nat) (kw : Nat × Nat) :
    Nat × Nat × Nat × Nat × Nat × Nat × Nat × Nat :=
  match st with
  | (a, b, c, d, e, f, g, h) =>
    let t1 := w32 (h + bigSigma1 e + chV e f g + kw.1 + kw.2)
    let t2 := w32 (bigSigma0 a + majV a b c)
    (w32 (t1 + t2), a, b, c, w32 (d + t1), e, f, g)

/-- Compress one 64-byte block into the running hash (eight 32-bit words). -/
def sha256Compress (hs : List Nat) (block : List Nat) : List Nat :=
  let w := extendW 48 ((List.range 16).map (fun i => wordAt block (4 * i)))
  let init := (hs.getD 0 0, hs.getD 1 0, hs.getD 2 0, hs.getD 3 0,
               hs.getD 4 0, hs.getD 5 0, hs.getD 6 0, hs.getD 7 0)
  match (sha256K.zip w).foldl sha256Round init with
  | (a, b, c, d, e, f, g, h) =>
    [w32 (hs.getD 0 0 + a), w32 (hs.getD 1 0 + b), w32 (hs.getD 2 0 + c), w32 (hs.getD 3 0 + d),
     w32 (hs.getD 4 0 + e), w32 (hs.getD 5 0 + f), w32 (hs.getD 6 0 + g), w32 (hs.getD 7 0 + h)]

/-- Split the padded message into 64-byte blocks (fuel-driven, fuel = length). -/
def chunk64 : Nat → List Nat → List (List Nat)
  | 0, _ => []
  | fuel + 1, l => if l.isEmpty then [] else l.take 64 :: chunk64 fuel (l.drop 64)

/-- Lower-case hex digit. -/
def hexDigit (n : Nat) : Char := if n < 10 then Char.ofNat (48 + n) else Char.ofNat (87 + n)

/-- Eight lower-case hex digits of a 32-bit word (big-endian nibbles), matching the
`%02x` per-byte printing of the C++ code. -/
def wordHex (x : Nat) : List Char :=
  (List.range 8).map (fun i => hexDigit ((x >>> ((7 - i) * 4)) % 16))

/-- SHA-256 of a byte list, as the 64-character lower-case hex string. -/
def sha256hexBytes (msg : List Nat) : String :=
  let blocks := chunk64 (sha256Pad msg).length (sha256Pad msg)
  let hs := blocks.foldl sha256Compress sha256H0
  String.mk (hs.flatMap wordHex)

/-- SHA-256 hex digest of a string (ASCII bytes, see header). -/
def sha256hex (s : String) : String := sha256hexBytes (s.data.map Char.toNat)

/-! ### `RefreshOrchestrator::GenerateStateHash` -/

/-- Reflexive lexicographic order on `(key, value)` pairs: the order `std::sort`
establishes through `std::pair::operator<`. -/
def pairLe (a b : String × String) : Prop := a.1 < b.1 ∨ (a.1 = b.1 ∧ a.2 ≤ b.2)

instance : DecidableRel pairLe := fun a b => inferInstanceAs (Decidable (_ ∨ _))

instance : IsTotal (String × String) pairLe where
  total a b := by
    rcases lt_trichotomy a.1 b.1 with h | h | h
    · exact Or.inl (Or.inl h)
    · rcases le_total a.2 b.2 with h2 | h2
      · exact Or.inl (Or.inr ⟨h, h2⟩)
      · exact Or.inr (Or.inr ⟨h.symm, h2⟩)
    · exact Or.inr (Or.inl h)

instance : IsTrans (String × String) pairLe where
  trans a b c hab hbc := by
    rcases hab with h1 | ⟨h1, h1'⟩
    · rcases hbc with h2 | ⟨h2, _⟩
      · exact Or.inl (h1.trans h2)
      · exact Or.inl (h2 ▸ h1)
    · rcases hbc with h2 | ⟨h2, h2'⟩
      · exact Or.inl (h1 ▸ h2)
      · exact Or.inr ⟨h1.trans h2, h1'.trans h2'⟩

instance : IsAntisymm (String × String) pairLe where
  antisymm a b hab hba := by
    rcases hab with h1 | ⟨h1, h1'⟩
    · rcases hba with h2 | ⟨h2, _⟩
      · exact absurd (h1.trans h2) (lt_irrefl _)
      · exact absurd h1 (h2 ▸ lt_irrefl _)
    · rcases hba with h2 | ⟨_, h2'⟩
      · exact absurd h2 (h1 ▸ lt_irrefl _)
      · exact Prod.ext h1 (le_antisymm h1' h2')

/-- `std::sort(sorted_metadata.begin(), sorted_metadata.end())`: sorting the
key/value pairs by the pair order. -/
def sortPairs (l : List (String × String)) : List (String × String) :=
  List.insertionSort pairLe l

/-- The sorted JSON-like serialization built by `GenerateStateHash`:
`{"k1":"v1","k2":"v2"}`. -/
def serializeMetadata (pairs : List (String × String)) : String :=
  "\x7b" ++ String.intercalate ","
    (pairs.map (fun p => "\"" ++ p.1 ++ "\":\"" ++ p.2 ++ "\"")) ++ "\x7d"

/-- `RefreshOrchestrator::GenerateStateHash`: the argument is the entry list of the
`std::unordered_map` in its (arbitrary) iteration order; the pairs are sorted,
serialized and SHA-256 hashed. -/
def GenerateStateHash (metadata : List (String × String)) : String :=
  sha256hex (serializeMetadata (sortPairs metadata))

/-- `metadata[table_name] = last_altered` applied row by row: association-map
insertion (replace the key if present). Models building the `unordered_map` from
the probe's result rows. -/
def BuildMetadataMap (rows : List (String × String)) : List (String × String) :=
  rows.foldl (fun m kv => m.filter (fun p => p.1 ≠ kv.1) ++ [kv]) []

/-- `std::transform(..., ::toupper)`: ASCII uppercase, character by character
(kernel-computable, unlike `String.toUpper`). -/
def ToUpper (s : String) : String := String.mk (s.data.map Char.toUpper)

/-! ### Data model (`metadata_manager.hpp` / `metadata_manager.cpp`)

The three metadata tables (`sources`, `caches`, `state`) are lists of rows in
insertion order; an un-`ORDER`ed `SELECT` reads them front to back.  All modelled
operations presuppose `Initialize` has run (otherwise every C++ method throws the
same `not initialized` exception before touching any data).  The `created_at`
columns are carried but never read by the modelled logic. -/

structure SourceDefinition where
  source_name : String
  driver_type : String
  secret_name : String
  passthrough_enabled : Bool
  created_at : Int := 0
  deriving DecidableEq

structure CacheDefinition where
  cache_name : String
  source_name : String
  source_query : String
  monitor_tables : List String
  ttl_seconds : Int
  has_ttl : Bool
  created_at : Int := 0
  deriving DecidableEq

/-- In-memory `CacheState` struct; the C++ empty-string encoding of absent values
(`HasLastRefresh` etc.) becomes `Option`. -/
structure CacheState where
  cache_name : String
  last_refresh : Option Int := none
  source_state_hash : Option String := none
  expires_at : Option Int := none
  deriving DecidableEq

/-- A row of the `state` table; `refresh_count` is a nullable `BIGINT`. -/
structure StateRow where
  cache_name : String
  last_refresh : Option Int := none
  source_state_hash : Option String := none
  expires_at : Option Int := none
  refresh_count : Option Int := none
  deriving DecidableEq

structure MetaStore where
  sources : List SourceDefinition
  caches : List CacheDefinition
  states : List StateRow
  deriving DecidableEq

/-- `DuckSyncMetadataManager::GetSource`: first `sources` row with the name. -/
def GetSource (store : MetaStore) (source_name : String) : Option SourceDefinition :=
  store.sources.find? (fun s => s.source_name == source_name)

/-- `DuckSyncMetadataManager::DeleteSource`:
`DELETE FROM sources WHERE source_name = ...` — nothing else. -/
def DeleteSource (store : MetaStore) (source_name : String) : MetaStore :=
  { store with sources := store.sources.filter (fun s => s.source_name ≠ source_name) }

/-- `DuckSyncMetadataManager::GetCache`: first `caches` row with the name. -/
def GetCache (store : MetaStore) (cache_name : String) : Option CacheDefinition :=
  store.caches.find? (fun c => c.cache_name == cache_name)

/-- `DuckSyncMetadataManager::ListCaches`: `SELECT ... ORDER BY cache_name`. -/
def ListCaches (store : MetaStore) : List CacheDefinition :=
  List.insertionSort (fun a b => a.cache_name ≤ b.cache_name) store.caches

/-- `DuckSyncMetadataManager::GetCacheByMonitorTable`: scan `ListCaches` for the
first cache monitoring the table, comparing uppercased names. -/
def GetCacheByMonitorTable (store : MetaStore) (table_name : String) :
    Option CacheDefinition :=
  let upper_table := ToUpper table_name
  (ListCaches store).find?
    (fun c => c.monitor_tables.any (fun m => ToUpper m == upper_table))

/-- `DuckSyncMetadataManager::DeleteCache`:
`DELETE FROM caches WHERE cache_name = ...`. -/
def DeleteCache (store : MetaStore) (cache_name : String) : MetaStore :=
  { store with caches := store.caches.filter (fun c => c.cache_name ≠ cache_name) }

/-- `DuckSyncMetadataManager::GetState`: first `state` row with the name,
projected onto the four `CacheState` fields (`refresh_count` is not read). -/
def GetState (store : MetaStore) (cache_name : String) : Option CacheState :=
  (store.states.find? (fun r => r.cache_name == cache_name)).map
    (fun r => ⟨r.cache_name, r.last_refresh, r.source_state_hash, r.expires_at⟩)

/-- The `SELECT refresh_count FROM state WHERE cache_name = ...` read performed by
`UpdateState`: first row's value, `0` when the row is missing or the value NULL. -/
def ReadRefreshCount (store : MetaStore) (cache_name : String) : Int :=
  match store.states.find? (fun r => r.cache_name == cache_name) with
  | some r => r.refresh_count.getD 0
  | none => 0

/-- `DuckSyncMetadataManager::InitializeState`: insert an all-empty row with
`refresh_count = 0` unless a row already exists. -/
def InitializeState (store : MetaStore) (cache_name : String) : MetaStore :=
  match GetState store cache_name with
  | some _ => store
  | none => { store with states := store.states ++ [{ cache_name := cache_name, refresh_count := some 0 }] }

/-- `DuckSyncMetadataManager::UpdateState`: read the current `refresh_count`
(guarded by `GetState`, which `ReadRefreshCount` folds in), delete every row of
the cache, insert one new row with `refresh_count + 1`. -/
def UpdateState (store : MetaStore) (state : CacheState) : MetaStore :=
  let refresh_count := ReadRefreshCount store state.cache_name
  { store with
    states := store.states.filter (fun r => r.cache_name ≠ state.cache_name) ++
      [{ cache_name := state.cache_name, last_refresh := state.last_refresh,
         source_state_hash := state.source_state_hash, expires_at := state.expires_at,
         refresh_count := some (refresh_count + 1) }] }

/-! ### `RefreshOrchestrator` (`refresh_orchestrator.hpp`) -/

inductive RefreshResultTag where
  | SKIPPED
  | REFRESHED
  | ERROR
  deriving DecidableEq

structure RefreshStatus where
  result : RefreshResultTag
  message : String
  rows_refreshed : Int := 0
  has_rows : Bool := false
  deriving DecidableEq

/-- Inputs of one `Refresh` run that come from outside the metadata store: the
clock and the remote warehouse.  `probe1`/`probe2` are the result rows of the two
possible `GetSourceTableMetadata` calls (the smart check and the post-refresh
recomputation); `materialize` is `ExecuteRefresh`'s outcome (row count, or the
exception it throws).  `.error` models a thrown exception. -/
structure RefreshEnv where
  now : Int
  probe1 : Except String (List (String × String))
  probe2 : Except String (List (String × String))
  materialize : Except String Int

/-- `RefreshOrchestrator::IsTTLExpired`: no TTL → never expired; TTL but no
`expires_at` → expired; otherwise `expires_at < now` (strict). -/
def IsTTLExpired (now : Int) (state : CacheState) (cache : CacheDefinition) : Bool :=
  if !cache.has_ttl then false
  else
    match state.expires_at with
    | none => true
    | some e => decide (e < now)

private def mkErr (msg : String) : RefreshStatus := { result := .ERROR, message := msg }

/-- Steps 4-5 of `RefreshOrchestrator::Refresh`: decide `needs_refresh`.

* Step 4: with a state row the C++ branch pair
  (`if (!force && has_state) { if (IsTTLExpired...) needs_refresh = true; }
  else if (!has_state) { needs_refresh = true; }` over the initial value `force`)
  reduces to `force || IsTTLExpired`; with no state row it is `true`.
* Step 5 runs the metadata probe (which may throw, hence `Except`) only when
  `!needs_refresh && has_state && state.HasStateHash()`; its
  `else if (!force) needs_refresh = true` arm is the identity when
  `needs_refresh` is already `true`. -/
def RefreshDecide (stateOpt : Option CacheState) (cache : CacheDefinition)
    (env : RefreshEnv) (force : Bool) : Except String Bool :=
  let needs0 : Bool :=
    match stateOpt with
    | some st => force || IsTTLExpired env.now st cache
    | none => true
  match stateOpt with
  | some st =>
    match st.source_state_hash with
    | some h =>
      if !needs0 then
        match env.probe1 with
        | .error e => .error ("Failed to query Snowflake metadata: " ++ e)
        | .ok rows =>
          .ok (if GenerateStateHash (BuildMetadataMap rows) ≠ h then true else needs0)
      else if !force then .ok true else .ok needs0
    | none => if !force then .ok true else .ok needs0
  | none => if !force then .ok true else .ok needs0

/-- Steps 6-8 of `RefreshOrchestrator::Refresh`: `ExecuteRefresh` (remote
execution + `CREATE OR REPLACE TABLE`), the post-refresh metadata probe, and
`UpdateCacheState` (`last_refresh = now`, the new hash, `expires_at = now + ttl`
when the TTL is set). -/
def RefreshExec (store : MetaStore) (env : RefreshEnv) (cache_name : String)
    (cache : CacheDefinition) : RefreshStatus × MetaStore :=
  match env.materialize with
  | .error e => (mkErr ("Refresh failed: " ++ e), store)
  | .ok rows =>
    match env.probe2 with
    | .error e =>
      (mkErr ("Refresh failed: Failed to query Snowflake metadata: " ++ e), store)
    | .ok rows2 =>
      let state_hash := GenerateStateHash (BuildMetadataMap rows2)
      let new_state : CacheState :=
        { cache_name := cache_name, last_refresh := some env.now,
          source_state_hash := some state_hash,
          expires_at := if cache.has_ttl then some (env.now + cache.ttl_seconds) else none }
      ({ result := .REFRESHED, message := "Cache refreshed successfully",
         rows_refreshed := rows, has_rows := true },
       UpdateState store new_state)

/-- `RefreshOrchestrator::Refresh`.  Returns the status together with the store
after the run (the store is only written by the final `UpdateCacheState`).
Every thrown exception is caught by the surrounding `try` and converted into an
`ERROR` status with message prefix `Refresh failed: `; the wall-clock duration
fields are not modelled (real time). -/
def Refresh (store : MetaStore) (env : RefreshEnv) (cache_name : String) (force : Bool) :
    RefreshStatus × MetaStore :=
  match GetCache store cache_name with
  | none => (mkErr ("Cache \x27" ++ cache_name ++ "\x27 not found"), store)
  | some cache =>
    match GetSource store cache.source_name with
    | none => (mkErr ("Source \x27" ++ cache.source_name ++ "\x27 not found"), store)
    | some _source =>
      match RefreshDecide (GetState store cache_name) cache env force with
      | .error e => (mkErr ("Refresh failed: " ++ e), store)
      | .ok needs_refresh =>
        if !needs_refresh then
          ({ result := .SKIPPED, message := "Cache is fresh, no refresh needed" }, store)
        else
          RefreshExec store env cache_name cache

/-! ### `QueryRouter` (`query_router.cpp`, replacement-scan path) -/

/-- `QueryRouter::IsCacheValid`: no state row or no `last_refresh` → invalid; no
TTL → valid; TTL but no `expires_at` → invalid; otherwise `expires_at >= now`. -/
def IsCacheValid (store : MetaStore) (now : Int) (cache : CacheDefinition) : Bool :=
  match GetState store cache.cache_name with
  | none => false
  | some st =>
    if st.last_refresh.isNone then false
    else if !cache.has_ttl then true
    else
      match st.expires_at with
      | none => false
      | some e => decide (e ≥ now)

/-- `QueryRouter::AutoRefreshCache`: synchronous smart refresh; an `ERROR` status
is re-raised as an `IOException` (modelled as `.error`), aborting the routing. -/
def AutoRefreshCache (store : MetaStore) (env : RefreshEnv) (cache : CacheDefinition) :
    Except String MetaStore :=
  let r := Refresh store env cache.cache_name false
  if r.1.result = .ERROR then
    .error ("Auto-refresh failed for cache \x27" ++ cache.cache_name ++ "\x27: " ++ r.1.message)
  else
    .ok r.2

/-! ### AST traversal and `ducksync_query` routing (`ducksync_extension.cpp`)

The DuckDB parser and `Statement::ToString` are library externals: the parse
result is an input of the model (`none` = `ParseQuery` threw) and rendering is a
structural printer over the modelled AST, which covers exactly the node shapes
the extraction/rewriting code traverses (base tables, joins, subqueries, set
operations, and a default case for everything else). -/

mutual
inductive QNode where
  | select (from_table : Option TRef)
  | setop (left right : QNode)
  | other

inductive TRef where
  | base (catalog_name schema_name table_name : String)
  | join (left right : TRef)
  | subquery (node : QNode)
  | otherRef
end

/-- A parsed statement: only `SELECT` statements are traversed. -/
inductive StmtAST where
  | select (node : QNode)
  | otherStmt

/-- `BuildFullTableName`: `[catalog.][schema.]table` skipping empty parts. -/
def BuildFullTableName (catalog_name schema_name table_name : String) : String :=
  (if catalog_name.isEmpty then "" else catalog_name ++ ".") ++
  (if schema_name.isEmpty then "" else schema_name ++ ".") ++ table_name

/-- `unordered_set::insert`: add the name unless already present. -/
def insertTable (tables : List String) (t : String) : List String :=
  if t ∈ tables then tables else tables ++ [t]

mutual
/-- `ExtractTablesFromQueryNode`. -/
def extractFromQNode (tables : List String) : QNode → List String
  | .select none => tables
  | .select (some ref) => extractFromTRef tables ref
  | .setop l r => extractFromQNode (extractFromQNode tables l) r
  | .other => tables

/-- `ExtractTablesFromTableRef`. -/
def extractFromTRef (tables : List String) : TRef → List String
  | .base c s t => insertTable tables (BuildFullTableName c s t)
  | .join l r => extractFromTRef (extractFromTRef tables l) r
  | .subquery n => extractFromQNode tables n
  | .otherRef => tables
end

/-- `ExtractTableReferences`: parse failure (`none`) is caught and yields the
tables collected so far — none, since `ParseQuery` throws before the statement
loop runs.  The `unordered_set` iteration order is unspecified; the list here is
first-insertion order, and the routing theorems do not depend on it. -/
def ExtractTableReferences (parse : Option (List StmtAST)) : List String :=
  match parse with
  | none => []
  | some stmts =>
    stmts.foldl
      (fun tables stmt =>
        match stmt with
        | .select node => extractFromQNode tables node
        | .otherStmt => tables)
      []

/-- Rewrite target recorded per table: `{catalog}.{source_name}.{cache_name}`. -/
structure TableRewrite where
  catalog : String
  schema_name : String
  table_name : String
  deriving DecidableEq

/-- Lookup in the rewrite map (keyed by uppercased full name). -/
def findRewrite (rewrites : List (String × TableRewrite)) (key : String) :
    Option TableRewrite :=
  (rewrites.find? (fun p => p.1 == key)).map Prod.snd

mutual
/-- `RewriteTablesInQueryNode`. -/
def rewriteQNode (rewrites : List (String × TableRewrite)) : QNode → QNode
  | .select none => .select none
  | .select (some ref) => .select (some (rewriteTRef rewrites ref))
  | .setop l r => .setop (rewriteQNode rewrites l) (rewriteQNode rewrites r)
  | .other => .other

/-- `RewriteTablesInTableRef`: replace catalog/schema/table on a matched base
table (case-insensitive key). -/
def rewriteTRef (rewrites : List (String × TableRewrite)) : TRef → TRef
  | .base c s t =>
    match findRewrite rewrites (ToUpper (BuildFullTableName c s t)) with
    | some rw => .base rw.catalog rw.schema_name rw.table_name
    | none => .base c s t
  | .join l r => .join (rewriteTRef rewrites l) (rewriteTRef rewrites r)
  | .subquery n => .subquery (rewriteQNode rewrites n)
  | .otherRef => .otherRef
end

mutual
/-- Structural rendering of a query node (models `Statement::ToString`). -/
def renderQNode : QNode → String
  | .select none => "SELECT *"
  | .select (some ref) => "SELECT * FROM " ++ renderTRef ref
  | .setop l r => renderQNode l ++ " UNION " ++ renderQNode r
  | .other => ""

def renderTRef : TRef → String
  | .base c s t => BuildFullTableName c s t
  | .join l r => renderTRef l ++ " JOIN " ++ renderTRef r
  | .subquery n => "(" ++ renderQNode n ++ ")"
  | .otherRef => ""
end

def renderStmt : StmtAST → String
  | .select node => renderQNode node
  | .otherStmt => ""

/-- `RewriteQueryWithAST`: rewrite each `SELECT` statement in place and return
the first statement's text; on parse failure or no statements, the original. -/
def RewriteQueryWithAST (parse : Option (List StmtAST)) (sql : String)
    (rewrites : List (String × TableRewrite)) : String :=
  match parse with
  | none => sql
  | some stmts =>
    let stmts' := stmts.map (fun stmt =>
      match stmt with
      | .select node => StmtAST.select (rewriteQNode rewrites node)
      | .otherStmt => .otherStmt)
    match stmts' with
    | [] => sql
    | s :: _ => renderStmt s

/-- The single-quote escaping applied to the passthrough query text. -/
def escapeQuotes (s : String) : String :=
  String.join (s.data.map (fun c => if c = Char.ofNat 39 then "\x27\x27" else String.mk [c]))

/-- The passthrough execution text:
`SELECT * FROM snowflake_query('<escaped sql>', '<secret>')`. -/
def PassthroughQuery (sql secret_name : String) : String :=
  "SELECT * FROM snowflake_query(\x27" ++ escapeQuotes sql ++ "\x27, \x27" ++ secret_name ++ "\x27)"

/-- The two-step resolution of one extracted table identifier: direct cache-name
match first, then monitor-table match. -/
def ResolveCacheFor (store : MetaStore) (table : String) : Option CacheDefinition :=
  match GetCache store table with
  | some cache => some cache
  | none => GetCacheByMonitorTable store table

/-- The per-table staleness check of `DuckSyncQueryBind`: no state row → refresh;
TTL set and `expires_at` present → string comparison `expires_at < now` (ISO
timestamps, modelled as `Int`); otherwise no refresh. -/
def BindNeedsRefresh (store : MetaStore) (now : Int) (cache : CacheDefinition) : Bool :=
  match GetState store cache.cache_name with
  | none => true
  | some st =>
    if cache.has_ttl && st.expires_at.isSome then decide (st.expires_at.getD 0 < now)
    else false

/-- The resolution loop of `DuckSyncQueryBind` over the extracted tables,
accumulating the rewrite map and the caches to refresh; an unresolved table
breaks out with `all_cached = false` (tables after it are not processed, entries
before it are kept). -/
def ResolveTables (store : MetaStore) (now : Int) (catalog : String) :
    List String → List (String × TableRewrite) × List CacheDefinition × Bool
  | [] => ([], [], true)
  | t :: rest =>
    match ResolveCacheFor store t with
    | none => ([], [], false)
    | some cache =>
      let (rw, toRefresh, ok) := ResolveTables store now catalog rest
      ((ToUpper t, ⟨catalog, cache.source_name, cache.cache_name⟩) :: rw,
       (if BindNeedsRefresh store now cache then [cache] else []) ++ toRefresh, ok)

/-- The refresh loop of `DuckSyncQueryBind`: refresh each collected cache with
`force = false`, threading the store; the returned statuses are discarded by the
caller (recorded here for the theorems). -/
def RunRefreshes (store : MetaStore) (renv : String → RefreshEnv) :
    List CacheDefinition → MetaStore × List (String × RefreshStatus)
  | [] => (store, [])
  | cache :: rest =>
    let r := Refresh store (renv cache.cache_name) cache.cache_name false
    let (store', acc) := RunRefreshes r.2 renv rest
    (store', (cache.cache_name, r.1) :: acc)

/-- Inputs of one `ducksync_query` bind that come from outside the store: the
clock, the parse result of the SQL text, and the per-cache refresh environment. -/
structure QueryEnv where
  now : Int
  parse : Option (List StmtAST)
  renv : String → RefreshEnv

/-- Routing decision produced by the bind. -/
structure BindOutcome where
  use_cache : Bool
  execution_query : String
  store : MetaStore
  refresh_statuses : List (String × RefreshStatus)

/-- `DuckSyncQueryBind` (the `ducksync_query` table function), up to the final
schema-discovery `Prepare` (external execution): resolve the source, extract
table references, resolve each against the store, refresh collected caches
(statuses discarded), and decide between AST rewrite and full passthrough.
`.error` models the `InvalidInputException` for an unknown source. -/
def DuckSyncQueryBind (store : MetaStore) (env : QueryEnv) (catalog : String)
    (sql source_name : String) : Except String BindOutcome :=
  match GetSource store source_name with
  | none => .error ("Source \x27" ++ source_name ++ "\x27 not found")
  | some source =>
    let tables := ExtractTableReferences env.parse
    let (rewrites, toRefresh, loop_ok) := ResolveTables store env.now catalog tables
    -- `all_cached` starts as `!tables.empty()` and is cleared by the loop break
    let all_cached := !tables.isEmpty && loop_ok
    let (store', statuses) := RunRefreshes store env.renv toRefresh
    if all_cached && !rewrites.isEmpty then
      .ok ⟨true, RewriteQueryWithAST env.parse sql rewrites, store', statuses⟩
    else
      .ok ⟨false, PassthroughQuery sql source.secret_name, store', statuses⟩

/-! ### Concrete fixtures used by the witness theorems -/

def srcA : SourceDefinition := ⟨"s", "snowflake", "sec", false, 0⟩

def cacheTTL : CacheDefinition := ⟨"c1", "s", "Q", ["T"], 3600, true, 0⟩

def mdT : List (String × String) := [("T", "t")]

/-- The canonical hash of `mdT`, as stored after a refresh that observed it. -/
def hashT : String := GenerateStateHash (BuildMetadataMap mdT)

/-- Store with an expired cache (`expires_at = 10`) whose stored hash matches `mdT`. -/
def storeExpired : MetaStore := ⟨[srcA], [cacheTTL], [⟨"c1", some 0, some hashT, some 10, some 1⟩]⟩

/-- Store whose cache expires exactly at instant 50. -/
def storeBoundary : MetaStore := ⟨[srcA], [cacheTTL], [⟨"c1", some 0, some hashT, some 50, some 1⟩]⟩

/-- Store with a defined but never-refreshed cache. -/
def storeFresh : MetaStore := ⟨[srcA], [cacheTTL], []⟩

/-- Store with an expired cache whose stored hash is an opaque literal. -/
def storeStale : MetaStore := ⟨[srcA], [cacheTTL], [⟨"c1", some 0, some "h", some 10, some 1⟩]⟩

/-- Parse result of `SELECT * FROM T JOIN X`. -/
def parseJoinTX : Option (List StmtAST) :=
  some [.select (.select (some (.join (.base "" "" "T") (.base "" "" "X"))))]

/-- Parse result of `SELECT * FROM T`. -/
def parseSelT : Option (List StmtAST) :=
  some [.select (.select (some (.base "" "" "T")))]

/-! ## Helper lemmas -/

theorem find?_state_filter_append (l rows : List StateRow) (n : String) :
    ((l.filter (fun r => r.cache_name ≠ n)) ++ rows).find? (fun r => r.cache_name == n) =
      rows.find? (fun r => r.cache_name == n) := by
  induction l with
  | nil => rfl
  | cons a l ih =>
    by_cases h : a.cache_name = n
    · simpa [List.filter_cons, h] using ih
    · simpa [List.filter_cons, h, List.find?_cons, List.cons_append] using ih

theorem countP_state_filter (l : List StateRow) (n : String) :
    (l.filter (fun r => r.cache_name ≠ n)).countP (fun r => r.cache_name == n) = 0 := by
  rw [List.countP_eq_zero]
  intro r hr
  simp only [List.mem_filter, ne_eq, decide_not, Bool.not_eq_eq_eq_not, Bool.not_true,
    decide_eq_false_iff_not] at hr
  simp [hr.2]

theorem getState_updateState_self (store : MetaStore) (s : CacheState) :
    GetState (UpdateState store s) s.cache_name =
      some ⟨s.cache_name, s.last_refresh, s.source_state_hash, s.expires_at⟩ := by
  show (((store.states.filter (fun r => r.cache_name ≠ s.cache_name)) ++
      [{ cache_name := s.cache_name, last_refresh := s.last_refresh,
         source_state_hash := s.source_state_hash, expires_at := s.expires_at,
         refresh_count := some (ReadRefreshCount store s.cache_name + 1) : StateRow}]).find?
      (fun r => r.cache_name == s.cache_name)).map _ = _
  rw [find?_state_filter_append]
  simp [List.find?]

theorem updateState_caches (store : MetaStore) (s : CacheState) :
    (UpdateState store s).caches = store.caches := rfl

theorem updateState_sources (store : MetaStore) (s : CacheState) :
    (UpdateState store s).sources = store.sources := rfl

theorem append_ne_empty_of_left (a b : String) (h : a.length ≠ 0) : a ++ b ≠ "" := by
  intro hc
  have hl := congrArg String.length hc
  rw [String.length_append] at hl
  have h0 : ("" : String).length = 0 := rfl
  omega

theorem append_ne_empty_of_right (a b : String) (h : b.length ≠ 0) : a ++ b ≠ "" := by
  intro hc
  have hl := congrArg String.length hc
  rw [String.length_append] at hl
  have h0 : ("" : String).length = 0 := rfl
  omega

/-- Exhaustive characterization of one `Refresh` run: either the store is left
untouched (`SKIPPED`, or `ERROR` with a non-empty message), or the run went
through materialization and ends `REFRESHED` with the store updated by the
single `UpdateState` call. -/
theorem refresh_main_cases (store : MetaStore) (env : RefreshEnv) (n : String)
    (force : Bool) (res : RefreshStatus × MetaStore) (h : Refresh store env n force = res) :
    ((res.1.result = .SKIPPED ∨ (res.1.result = .ERROR ∧ res.1.message ≠ "")) ∧
      res.2 = store) ∨
    (∃ cache source rows md2,
      GetCache store n = some cache ∧ GetSource store cache.source_name = some source ∧
      env.materialize = .ok rows ∧ env.probe2 = .ok md2 ∧
      res = ({ result := .REFRESHED, message := "Cache refreshed successfully",
               rows_refreshed := rows, has_rows := true },
             UpdateState store ⟨n, some env.now,
               some (GenerateStateHash (BuildMetadataMap md2)),
               if cache.has_ttl then some (env.now + cache.ttl_seconds) else none⟩)) := by
  unfold Refresh at h
  split at h
  · rw [← h]
    exact Or.inl ⟨Or.inr ⟨rfl, append_ne_empty_of_right _ _ (by decide)⟩, rfl⟩
  · split at h
    · rw [← h]
      exact Or.inl ⟨Or.inr ⟨rfl, append_ne_empty_of_right _ _ (by decide)⟩, rfl⟩
    · split at h
      · rw [← h]
        exact Or.inl ⟨Or.inr ⟨rfl, append_ne_empty_of_left _ _ (by decide)⟩, rfl⟩
      · split at h
        · rw [← h]
          exact Or.inl ⟨Or.inl rfl, rfl⟩
        · unfold RefreshExec at h
          split at h
          · rw [← h]
            exact Or.inl ⟨Or.inr ⟨rfl, append_ne_empty_of_left _ _ (by decide)⟩, rfl⟩
          · split at h
            · rw [← h]
              exact Or.inl ⟨Or.inr ⟨rfl, append_ne_empty_of_left _ _ (by decide)⟩, rfl⟩
            · exact Or.inr ⟨_, _, _, _, by assumption, by assumption, by assumption,
                by assumption, h.symm⟩

/-! ## Claims -/

/-- C6: Refresh error atomicity — whenever a run reports `ERROR` the stored
metadata (including the cache's `CacheState` row) is exactly what it was before
the call and the message is non-empty (no exception escapes: `Refresh` is a
total function); and an exception thrown by the materialization step
(`ExecuteRefresh`) can never yield `REFRESHED`. -/
theorem refresh_error_atomicity (store : MetaStore) (env : RefreshEnv) (n : String)
    (force : Bool) :
    ((Refresh store env n force).1.result = .ERROR →
      (Refresh store env n force).2 = store ∧ (Refresh store env n force).1.message ≠ "") ∧
    (∀ e, env.materialize = .error e → (Refresh store env n force).1.result ≠ .REFRESHED) := by
  rcases refresh_main_cases store env n force _ rfl with
    ⟨hres, hs⟩ | ⟨c, s, r, m, hgc, hgs, hmat, hp2, heq⟩
  · constructor
    · intro herr
      rcases hres with hsk | ⟨_, hmsg⟩
      · exact absurd (hsk.symm.trans herr) (by decide)
      · exact ⟨hs, hmsg⟩
    · intro e _ href
      rcases hres with hsk | ⟨herr, _⟩
      · exact absurd (hsk.symm.trans href) (by decide)
      · exact absurd (herr.symm.trans href) (by decide)
  · constructor
    · intro herr
      rw [heq] at herr
      exact RefreshResultTag.noConfusion herr
    · intro e hme _
      rw [hmat] at hme
      exact (Except.noConfusion hme)

/-- Witness for C6: an unknown cache yields `ERROR` with the store unchanged and
a non-empty message; a failing materialization on a never-refreshed cache does
not yield `REFRESHED`. -/
theorem refresh_error_atomicity_witness :
    (Refresh ⟨[], [], []⟩ ⟨0, .ok [], .ok [], .ok 0⟩ "c" false).1.result = .ERROR ∧
    (Refresh ⟨[], [], []⟩ ⟨0, .ok [], .ok [], .ok 0⟩ "c" false).2 = ⟨[], [], []⟩ ∧
    (Refresh ⟨[], [], []⟩ ⟨0, .ok [], .ok [], .ok 0⟩ "c" false).1.message ≠ "" ∧
    (Refresh ⟨[⟨"s", "snowflake", "sec", false, 0⟩], [⟨"c1", "s", "Q", ["T"], 0, false, 0⟩], []⟩
        ⟨0, .ok [], .ok [], .error "down"⟩ "c1" false).1.result ≠ .REFRESHED :=
  ⟨by decide,
   ((refresh_error_atomicity ⟨[], [], []⟩ ⟨0, .ok [], .ok [], .ok 0⟩ "c" false).1 (by decide)).1,
   ((refresh_error_atomicity ⟨[], [], []⟩ ⟨0, .ok [], .ok [], .ok 0⟩ "c" false).1 (by decide)).2,
   (refresh_error_atomicity ⟨[⟨"s", "snowflake", "sec", false, 0⟩],
       [⟨"c1", "s", "Q", ["T"], 0, false, 0⟩], []⟩
       ⟨0, .ok [], .ok [], .error "down"⟩ "c1" false).2 "down" rfl⟩

/-- C2: with a TTL set and `expires_at` absent or strictly before `now`, a
non-forced `Refresh` performs the full refresh and returns `REFRESHED`; the
stored-hash comparison is never consulted (`env.probe1` is unconstrained — the
theorem holds even when the recomputed hash would equal the stored one, and even
when the first probe would fail). -/
theorem refresh_ttl_expiry_forces (store : MetaStore) (env : RefreshEnv) (n : String)
    (cache : CacheDefinition) (source : SourceDefinition) (st : CacheState) (rows : Int)
    (md2 : List (String × String))
    (hgc : GetCache store n = some cache)
    (hgs : GetSource store cache.source_name = some source)
    (hst : GetState store n = some st)
    (httl : cache.has_ttl = true)
    (hexp : st.expires_at = none ∨ ∃ e, st.expires_at = some e ∧ e < env.now)
    (hmat : env.materialize = .ok rows)
    (hp2 : env.probe2 = .ok md2) :
    Refresh store env n false =
      ({ result := .REFRESHED, message := "Cache refreshed successfully",
         rows_refreshed := rows, has_rows := true },
       UpdateState store ⟨n, some env.now, some (GenerateStateHash (BuildMetadataMap md2)),
         some (env.now + cache.ttl_seconds)⟩) := by
  have hexp' : IsTTLExpired env.now st cache = true := by
    rcases hexp with h | ⟨e, he, hlt⟩
    · simp [IsTTLExpired, httl, h]
    · simp [IsTTLExpired, httl, he, hlt]
  have hdec : RefreshDecide (GetState store n) cache env false = .ok true := by
    rw [hst]
    cases hh : st.source_state_hash <;> simp [RefreshDecide, hexp', hh]
  simp [Refresh, hgc, hgs, hdec, RefreshExec, hmat, hp2, httl]

/-- Witness for C2: expired TTL, unchanged metadata (the stored hash is exactly
the hash of the probe result) and a first probe that would even fail — the
refresh still happens. -/
theorem refresh_ttl_expiry_forces_witness :
    GetCache storeExpired "c1" = some cacheTTL ∧
    GetState storeExpired "c1" = some ⟨"c1", some 0, some hashT, some 10⟩ ∧
    (10 : Int) < 100 ∧
    Refresh storeExpired ⟨100, .error "probe down", .ok mdT, .ok 7⟩ "c1" false =
      ({ result := .REFRESHED, message := "Cache refreshed successfully",
         rows_refreshed := 7, has_rows := true },
       UpdateState storeExpired ⟨"c1", some 100, some (GenerateStateHash (BuildMetadataMap mdT)),
         some 3700⟩) :=
  ⟨rfl, rfl, by decide,
   refresh_ttl_expiry_forces storeExpired ⟨100, .error "probe down", .ok mdT, .ok 7⟩ "c1"
     cacheTTL srcA ⟨"c1", some 0, some hashT, some 10⟩ 7 mdT
     rfl rfl rfl rfl (Or.inr ⟨10, rfl, by decide⟩) rfl rfl⟩

/-- C10: exact-expiry boundary — at `expires_at = now` the orchestrator's
`IsTTLExpired` (strict `<`) reports not expired, the router's `IsCacheValid`
(`>=`) reports valid, the bind's staleness check (strict `<`) requests no
refresh, and a smart refresh at that instant with unchanged metadata is
`SKIPPED`; expiry begins strictly after `expires_at`. -/
theorem ttl_exact_boundary (store : MetaStore) (env : RefreshEnv)
    (cache : CacheDefinition) (source : SourceDefinition) (st : CacheState)
    (now : Int) (md : List (String × String))
    (httl : cache.has_ttl = true)
    (hexp : st.expires_at = some now)
    (hst : GetState store cache.cache_name = some st)
    (hlr : st.last_refresh.isSome = true)
    (hgc : GetCache store cache.cache_name = some cache)
    (hgs : GetSource store cache.source_name = some source)
    (hhash : st.source_state_hash = some (GenerateStateHash (BuildMetadataMap md)))
    (hp1 : env.probe1 = .ok md)
    (hnow : env.now = now) :
    IsTTLExpired now st cache = false ∧
    IsCacheValid store now cache = true ∧
    BindNeedsRefresh store now cache = false ∧
    Refresh store env cache.cache_name false =
      ({ result := .SKIPPED, message := "Cache is fresh, no refresh needed" }, store) := by
  have h1 : IsTTLExpired now st cache = false := by simp [IsTTLExpired, httl, hexp]
  refine ⟨h1, ?_, ?_, ?_⟩
  · cases hl : st.last_refresh with
    | none => rw [hl] at hlr; exact (Bool.noConfusion hlr)
    | some t0 => simp [IsCacheValid, hst, httl, hexp, hl]
  · simp [BindNeedsRefresh, hst, httl, hexp]
  · have hdec : RefreshDecide (GetState store cache.cache_name) cache env false = .ok false := by
      rw [hst]
      simp [RefreshDecide, hnow, h1, hhash, hp1]
    simp [Refresh, hgc, hgs, hdec]

/-- Witness for C10 at `expires_at = now = 50`. -/
theorem ttl_exact_boundary_witness :
    GetState storeBoundary "c1" = some ⟨"c1", some 0, some hashT, some 50⟩ ∧
    IsTTLExpired 50 ⟨"c1", some 0, some hashT, some 50⟩ cacheTTL = false ∧
    IsCacheValid storeBoundary 50 cacheTTL = true ∧
    BindNeedsRefresh storeBoundary 50 cacheTTL = false ∧
    Refresh storeBoundary ⟨50, .ok mdT, .ok [], .ok 0⟩ "c1" false =
      ({ result := .SKIPPED, message := "Cache is fresh, no refresh needed" }, storeBoundary) :=
  ⟨rfl,
   (ttl_exact_boundary storeBoundary ⟨50, .ok mdT, .ok [], .ok 0⟩ cacheTTL srcA
      ⟨"c1", some 0, some hashT, some 50⟩ 50 mdT rfl rfl rfl rfl rfl rfl rfl rfl rfl).1,
   (ttl_exact_boundary storeBoundary ⟨50, .ok mdT, .ok [], .ok 0⟩ cacheTTL srcA
      ⟨"c1", some 0, some hashT, some 50⟩ 50 mdT rfl rfl rfl rfl rfl rfl rfl rfl rfl).2.1,
   (ttl_exact_boundary storeBoundary ⟨50, .ok mdT, .ok [], .ok 0⟩ cacheTTL srcA
      ⟨"c1", some 0, some hashT, some 50⟩ 50 mdT rfl rfl rfl rfl rfl rfl rfl rfl rfl).2.2.1,
   (ttl_exact_boundary storeBoundary ⟨50, .ok mdT, .ok [], .ok 0⟩ cacheTTL srcA
      ⟨"c1", some 0, some hashT, some 50⟩ 50 mdT rfl rfl rfl rfl rfl rfl rfl rfl rfl).2.2.2⟩


/-- C3: Idempotence of skip — if a non-forced `Refresh` returns `REFRESHED` and
is immediately repeated with the remote metadata unchanged (the second run's
probe sees what the first run's post-refresh probe saw) and the TTL not yet
expired, the second run performs no materialization (returns the stored state
untouched) and reports `SKIPPED`. -/
theorem refresh_skip_idempotent (store : MetaStore) (env1 env2 : RefreshEnv)
    (n : String) (cache : CacheDefinition)
    (h1 : (Refresh store env1 n false).1.result = .REFRESHED)
    (hgc : GetCache store n = some cache)
    (hp : env2.probe1 = env1.probe2)
    (httl : cache.has_ttl = true → env2.now ≤ env1.now + cache.ttl_seconds) :
    Refresh (Refresh store env1 n false).2 env2 n false =
      ({ result := .SKIPPED, message := "Cache is fresh, no refresh needed" },
       (Refresh store env1 n false).2) := by
  rcases refresh_main_cases store env1 n false _ rfl with
    ⟨hsk | ⟨herr, _⟩, _⟩ | ⟨c, s, r, md2, hgc', hgs', hmat, hp2, heq⟩
  · exact absurd (hsk.symm.trans h1) (by decide)
  · exact absurd (herr.symm.trans h1) (by decide)
  · have hcc : c = cache := by
      rw [hgc'] at hgc
      exact Option.some.inj hgc
    rw [hcc] at hgs' heq
    have hst2 : (Refresh store env1 n false).2 =
        UpdateState store ⟨n, some env1.now,
          some (GenerateStateHash (BuildMetadataMap md2)),
          if cache.has_ttl then some (env1.now + cache.ttl_seconds) else none⟩ := by
      rw [heq]
    rw [hst2]
    have hgc2 : GetCache (UpdateState store ⟨n, some env1.now,
        some (GenerateStateHash (BuildMetadataMap md2)),
        if cache.has_ttl then some (env1.now + cache.ttl_seconds) else none⟩) n =
        some cache := hgc
    have hgs2 : GetSource (UpdateState store ⟨n, some env1.now,
        some (GenerateStateHash (BuildMetadataMap md2)),
        if cache.has_ttl then some (env1.now + cache.ttl_seconds) else none⟩)
        cache.source_name = some s := hgs'
    have hstate2 := getState_updateState_self store ⟨n, some env1.now,
        some (GenerateStateHash (BuildMetadataMap md2)),
        if cache.has_ttl then some (env1.now + cache.ttl_seconds) else none⟩
    have hT : IsTTLExpired env2.now ⟨n, some env1.now,
        some (GenerateStateHash (BuildMetadataMap md2)),
        if cache.has_ttl then some (env1.now + cache.ttl_seconds) else none⟩ cache = false := by
      by_cases hc : cache.has_ttl
      · simp [IsTTLExpired, hc, not_lt.mpr (httl hc)]
      · simp [IsTTLExpired, hc]
    have hdec : RefreshDecide (GetState (UpdateState store ⟨n, some env1.now,
        some (GenerateStateHash (BuildMetadataMap md2)),
        if cache.has_ttl then some (env1.now + cache.ttl_seconds) else none⟩) n)
        cache env2 false = .ok false := by
      rw [hstate2]
      simp [RefreshDecide, hT, hp, hp2]
    simp [Refresh, hgc2, hgs2, hdec]

/-- Witness for C3: a never-refreshed cache is refreshed, then the immediate
repetition with unchanged metadata and unexpired TTL is skipped. -/
theorem refresh_skip_idempotent_witness :
    (Refresh storeFresh ⟨100, .ok [], .ok mdT, .ok 5⟩ "c1" false).1.result = .REFRESHED ∧
    Refresh (Refresh storeFresh ⟨100, .ok [], .ok mdT, .ok 5⟩ "c1" false).2
        ⟨200, .ok mdT, .ok [], .error "second run never materializes"⟩ "c1" false =
      ({ result := .SKIPPED, message := "Cache is fresh, no refresh needed" },
       (Refresh storeFresh ⟨100, .ok [], .ok mdT, .ok 5⟩ "c1" false).2) :=
  ⟨by decide,
   refresh_skip_idempotent storeFresh ⟨100, .ok [], .ok mdT, .ok 5⟩
     ⟨200, .ok mdT, .ok [], .error "second run never materializes"⟩ "c1" cacheTTL
     (by decide) rfl rfl (fun _ => by decide)⟩

/-- An unresolved member of the table list makes the resolution loop of
`DuckSyncQueryBind` end with `all_cached = false`. -/
theorem resolveTables_unresolved (store : MetaStore) (now : Int) (catalog : String) :
    ∀ (l : List String) (t : String), t ∈ l → ResolveCacheFor store t = none →
      (ResolveTables store now catalog l).2.2 = false := by
  intro l
  induction l with
  | nil => intro t ht _; exact absurd ht (List.not_mem_nil t)
  | cons a l ih =>
    intro t ht hfail
    rcases List.mem_cons.mp ht with rfl | hmem
    · simp [ResolveTables, hfail]
    · cases hre : ResolveCacheFor store a with
      | none => simp [ResolveTables, hre]
      | some cache =>
        have htail := ih t hmem hfail
        rcases hrt : ResolveTables store now catalog l with ⟨rw, tr, ok⟩
        rw [hrt] at htail
        simp [ResolveTables, hre, hrt]
        exact htail

/-- C1: All-or-nothing routing — if any extracted table identifier resolves to
no cache (neither by cache name nor by case-insensitive monitor table), the
rewrite map is discarded: `ducksync_query` executes the original query text,
wrapped for the remote warehouse, with `used_cache = false`. -/
theorem ducksync_query_all_or_nothing (store : MetaStore) (env : QueryEnv)
    (catalog sql source_name : String) (source : SourceDefinition) (t : String)
    (hsrc : GetSource store source_name = some source)
    (ht : t ∈ ExtractTableReferences env.parse)
    (hfail : ResolveCacheFor store t = none) :
    (DuckSyncQueryBind store env catalog sql source_name).map
      (fun o => (o.use_cache, o.execution_query)) =
      .ok (false, PassthroughQuery sql source.secret_name) := by
  have hloop := resolveTables_unresolved store env.now catalog _ t ht hfail
  rcases hrt : ResolveTables store env.now catalog (ExtractTableReferences env.parse) with
    ⟨rw, tr, ok⟩
  rw [hrt] at hloop
  simp only at hloop
  rcases hrun : RunRefreshes store env.renv tr with ⟨st2, stats⟩
  simp [DuckSyncQueryBind, hsrc, hrt, hrun, hloop, Except.map]

/-- Witness for C1: `SELECT * FROM T JOIN X` where `T` is monitored by a cache
and `X` resolves to nothing executes as full passthrough. -/
theorem ducksync_query_all_or_nothing_witness :
    GetSource storeFresh "s" = some srcA ∧
    "X" ∈ ExtractTableReferences parseJoinTX ∧
    ResolveCacheFor storeFresh "X" = none ∧
    (DuckSyncQueryBind storeFresh
        ⟨0, parseJoinTX, fun _ => ⟨0, .ok [], .ok [], .ok 0⟩⟩ "lake"
        "SELECT * FROM T JOIN X" "s").map (fun o => (o.use_cache, o.execution_query)) =
      .ok (false, PassthroughQuery "SELECT * FROM T JOIN X" srcA.secret_name) :=
  ⟨rfl, by decide, by decide,
   ducksync_query_all_or_nothing storeFresh
     ⟨0, parseJoinTX, fun _ => ⟨0, .ok [], .ok [], .ok 0⟩⟩ "lake"
     "SELECT * FROM T JOIN X" "s" srcA "X" rfl (by decide) (by decide)⟩

/-- C9: a query text that fails to parse yields no extracted tables, and routing
degrades to full passthrough of the original text with `used_cache = false`
(no parse error escapes: the bind returns `.ok`, with no refresh attempted and
the store untouched). -/
theorem parse_failure_full_passthrough (store : MetaStore) (env : QueryEnv)
    (catalog sql source_name : String) (source : SourceDefinition)
    (hsrc : GetSource store source_name = some source)
    (hparse : env.parse = none) :
    ExtractTableReferences env.parse = [] ∧
    DuckSyncQueryBind store env catalog sql source_name =
      .ok ⟨false, PassthroughQuery sql source.secret_name, store, []⟩ := by
  constructor
  · rw [hparse]
    rfl
  · simp [DuckSyncQueryBind, hsrc, hparse, ExtractTableReferences, ResolveTables, RunRefreshes]


/-- Witness for C9 on malformed SQL (parse oracle `none`). -/
theorem parse_failure_full_passthrough_witness :
    GetSource storeFresh "s" = some srcA ∧
    ExtractTableReferences (none : Option (List StmtAST)) = [] ∧
    DuckSyncQueryBind storeFresh ⟨0, none, fun _ => ⟨0, .ok [], .ok [], .ok 0⟩⟩ "lake"
        "SELEC FROM (((" "s" =
      .ok ⟨false, PassthroughQuery "SELEC FROM (((" srcA.secret_name, storeFresh, []⟩ :=
  ⟨rfl,
   (parse_failure_full_passthrough storeFresh ⟨0, none, fun _ => ⟨0, .ok [], .ok [], .ok 0⟩⟩
     "lake" "SELEC FROM (((" "s" srcA rfl rfl).1,
   (parse_failure_full_passthrough storeFresh ⟨0, none, fun _ => ⟨0, .ok [], .ok [], .ok 0⟩⟩
     "lake" "SELEC FROM (((" "s" srcA rfl rfl).2⟩

/-- C5 (code-bug evidence): `DuckSyncQueryBind` discards the status returned by
the implicit `orchestrator.Refresh` call — a refresh that reports `ERROR`
(remote down) does not abort the routing: the bind still returns `use_cache =
true` with the rewritten query, serving the stale cached table.  (The
abort-on-error behaviour exists only on the replacement-scan path:
`AutoRefreshCache`, see `autoRefreshCache_raises_on_error`.) -/
theorem ducksync_query_ignores_refresh_error :
    (DuckSyncQueryBind storeStale
        ⟨100, parseSelT, fun _ => ⟨100, .ok [], .ok [], .error "remote down"⟩⟩
        "lake" "SELECT * FROM T" "s").map
      (fun o => (o.use_cache, o.refresh_statuses.map (fun p => p.2.result), o.store)) =
      .ok (true, [.ERROR], storeStale) := by decide

/-- The replacement-scan router is the path that does abort: `AutoRefreshCache`
raises when the smart refresh reports `ERROR`. -/
theorem autoRefreshCache_raises_on_error (store : MetaStore) (env : RefreshEnv)
    (cache : CacheDefinition)
    (herr : (Refresh store env cache.cache_name false).1.result = .ERROR) :
    AutoRefreshCache store env cache =
      .error ("Auto-refresh failed for cache \x27" ++ cache.cache_name ++ "\x27: " ++
        (Refresh store env cache.cache_name false).1.message) := by
  simp [AutoRefreshCache, herr]

/-- Witness for `autoRefreshCache_raises_on_error` on a stale cache whose
materialization fails. -/
theorem autoRefreshCache_raises_on_error_witness :
    (Refresh storeStale ⟨100, .ok [], .ok [], .error "remote down"⟩ "c1" false).1.result =
      .ERROR ∧
    AutoRefreshCache storeStale ⟨100, .ok [], .ok [], .error "remote down"⟩ cacheTTL =
      .error ("Auto-refresh failed for cache \x27c1\x27: " ++
        (Refresh storeStale ⟨100, .ok [], .ok [], .error "remote down"⟩ "c1" false).1.message) :=
  ⟨by decide,
   autoRefreshCache_raises_on_error storeStale ⟨100, .ok [], .ok [], .error "remote down"⟩
     cacheTTL (by decide)⟩

/-- C4: Hash determinism — `GenerateStateHash` yields the same SHA-256 hex digest
for any two presentations of the same key/value pairs (any two iteration orders
of the `unordered_map`, i.e. any two permutations of the entry list), because the
pairs are sorted by the (antisymmetric, total) pair order before serialization. -/
theorem generateStateHash_deterministic (l1 l2 : List (String × String))
    (h : l1.Perm l2) : GenerateStateHash l1 = GenerateStateHash l2 := by
  have hsort : sortPairs l1 = sortPairs l2 :=
    List.eq_of_perm_of_sorted
      (((List.perm_insertionSort pairLe l1).trans h).trans
        (List.perm_insertionSort pairLe l2).symm)
      (List.sorted_insertionSort pairLe l1) (List.sorted_insertionSort pairLe l2)
  simp [GenerateStateHash, hsort]

/-- Witness for C4 at a concrete pair of permuted metadata maps. -/
theorem generateStateHash_deterministic_witness :
    List.Perm [("B", "2"), ("A", "1")] [("A", "1"), ("B", "2")] ∧
    GenerateStateHash [("B", "2"), ("A", "1")] = GenerateStateHash [("A", "1"), ("B", "2")] :=
  ⟨List.Perm.swap ("A", "1") ("B", "2") [],
   generateStateHash_deterministic _ _ (List.Perm.swap ("A", "1") ("B", "2") [])⟩

/-- C7 counterexample: `DeleteSource` does not cascade.  In a store holding
source `s`, a cache `c` referencing `s` and `c`'s state row, deleting `s` leaves
both the cache definition and the state row in place, refuting the claim that
afterwards no cache or state row referencing the source remains. -/
theorem deleteSource_cascade_counterexample :
    ¬ ((∀ c ∈ (DeleteSource ⟨[⟨"s", "snowflake", "sec", false, 0⟩],
          [⟨"c", "s", "Q", ["T"], 0, false, 0⟩],
          [⟨"c", none, none, none, some 0⟩]⟩ "s").caches, c.source_name ≠ "s") ∧
        (∀ r ∈ (DeleteSource ⟨[⟨"s", "snowflake", "sec", false, 0⟩],
          [⟨"c", "s", "Q", ["T"], 0, false, 0⟩],
          [⟨"c", none, none, none, some 0⟩]⟩ "s").states, r.cache_name ≠ "c")) := by
  decide

/-- C7 (amended): `DeleteSource` removes exactly the matching rows of the
`sources` table and nothing else; cache definitions referencing the source and
their state rows are untouched. -/
theorem deleteSource_no_cascade (store : MetaStore) (name : String) :
    (DeleteSource store name).caches = store.caches ∧
    (DeleteSource store name).states = store.states ∧
    ∀ s ∈ (DeleteSource store name).sources, s.source_name ≠ name := by
  refine ⟨rfl, rfl, ?_⟩
  intro s hs
  have := List.mem_filter.mp hs
  simpa using this.2

/-- Witness for C7 (amended) at a concrete store. -/
theorem deleteSource_no_cascade_witness :
    (DeleteSource ⟨[⟨"s", "snowflake", "sec", false, 0⟩],
        [⟨"c", "s", "Q", ["T"], 0, false, 0⟩], []⟩ "s").caches =
      [⟨"c", "s", "Q", ["T"], 0, false, 0⟩] ∧
    (⟨"s2", "snowflake", "sec", false, 0⟩ : SourceDefinition) ∈
      (DeleteSource ⟨[⟨"s2", "snowflake", "sec", false, 0⟩], [], []⟩ "s").sources ∧
    ("s2" : String) ≠ "s" :=
  ⟨(deleteSource_no_cascade ⟨[⟨"s", "snowflake", "sec", false, 0⟩],
      [⟨"c", "s", "Q", ["T"], 0, false, 0⟩], []⟩ "s").1,
   by decide,
   (deleteSource_no_cascade ⟨[⟨"s2", "snowflake", "sec", false, 0⟩], [], []⟩ "s").2.2
     ⟨"s2", "snowflake", "sec", false, 0⟩ (by decide)⟩

/-- C8: `UpdateState` reads the stored `refresh_count` (0 when the row is absent
or NULL), deletes the old row and inserts exactly one new row carrying the
argument's fields with `refresh_count` incremented by exactly one. -/
theorem updateState_increments_refresh_count (store : MetaStore) (s : CacheState) :
    GetState (UpdateState store s) s.cache_name =
      some ⟨s.cache_name, s.last_refresh, s.source_state_hash, s.expires_at⟩ ∧
    ReadRefreshCount (UpdateState store s) s.cache_name =
      ReadRefreshCount store s.cache_name + 1 ∧
    (UpdateState store s).states.countP (fun r => r.cache_name == s.cache_name) = 1 := by
  refine ⟨getState_updateState_self store s, ?_, ?_⟩
  · show (match ((store.states.filter (fun r => r.cache_name ≠ s.cache_name)) ++
        [{ cache_name := s.cache_name, last_refresh := s.last_refresh,
           source_state_hash := s.source_state_hash, expires_at := s.expires_at,
           refresh_count := some (ReadRefreshCount store s.cache_name + 1) : StateRow}]).find?
        (fun r => r.cache_name == s.cache_name) with
      | some r => r.refresh_count.getD 0
      | none => 0) = ReadRefreshCount store s.cache_name + 1
    rw [find?_state_filter_append]
    simp [List.find?]
  · show ((store.states.filter (fun r => r.cache_name ≠ s.cache_name)) ++
        [{ cache_name := s.cache_name, last_refresh := s.last_refresh,
           source_state_hash := s.source_state_hash, expires_at := s.expires_at,
           refresh_count := some (ReadRefreshCount store s.cache_name + 1) : StateRow}]).countP
        (fun r => r.cache_name == s.cache_name) = 1
    rw [List.countP_append, countP_state_filter]
    simp [List.countP, List.countP.go]

end DuckSync
